import Mathlib

/-!
Verification of the FraudShield behavioral fraud-risk pipeline.

The repository ships the React frontend (pages, components, and the API
client `frontend/src/services/api.js`); the backend engine the README
describes (`backend/app/engine/{features,feature_store,ensemble,threshold,
explainability,graph,champion_challenger,feedback}.py`) is not part of the
source tree.  Where a definition embeds that missing engine it is modelled
from the specification and is marked `Modelled from the spec:`; the API
client, which is present, is embedded directly from `api.js`.

All real-valued quantities are modelled over `ℚ`; the transcendental
haversine distance is abstracted as an arbitrary distance function
parameter where it occurs.
-/

namespace FraudShield

/-- Modelled from the spec: the three risk levels of a `RiskAssessment`
(§3 data model); the backend engine is absent from the source tree. -/
inductive RiskLevel
  | Low
  | Medium
  | High
deriving DecidableEq

/-- Modelled from the spec: `risk_level` is a monotone step function of
`risk_score` — `<40` Low, `<70` Medium, else High (§3 invariant). -/
def riskLevelOf (score : ℤ) : RiskLevel :=
  if score < 40 then .Low else if score < 70 then .Medium else .High

/-- Modelled from the spec: the `RiskAssessment` record assembled once per
transaction (§3 data model). -/
structure RiskAssessment where
  fraud_probability : ℚ
  risk_score : ℤ
  risk_level : RiskLevel
  threshold_used : ℚ
  flagged : Bool
  reasons : List String
  graph_flagged : Bool

/-- Modelled from the spec: default supervised weight of the hybrid
ensemble, `w_s = 0.7` (§4.3). -/
def w_s : ℚ := 7 / 10

/-- Modelled from the spec: default unsupervised weight of the hybrid
ensemble, `w_u = 0.3` (§4.3). -/
def w_u : ℚ := 3 / 10

/-- Modelled from the spec: the hybrid ensemble score
`fraud_probability = w_s · P_supervised + w_u · S_unsupervised` (§4.3). -/
def ensembleScore (pSupervised sUnsupervised : ℚ) : ℚ :=
  w_s * pSupervised + w_u * sUnsupervised

/-- Modelled from the spec: default lower threshold bound `t_min = 0.3`
(§4.4). -/
def t_min : ℚ := 3 / 10

/-- Modelled from the spec: default upper threshold bound `t_max = 0.7`
(§4.4). -/
def t_max : ℚ := 7 / 10

/-- Modelled from the spec: the saturating age factor `min(age/90, 1)`
used by the dynamic threshold (§4.4). -/
def fAge (account_age_days : ℚ) : ℚ :=
  min (account_age_days / 90) 1

/-- Modelled from the spec: the dynamic threshold
`t = t_min + (t_max − t_min) · f(account_age_days) · trust_score` (§4.4). -/
def threshold (account_age_days trust_score : ℚ) : ℚ :=
  t_min + (t_max - t_min) * fAge account_age_days * trust_score

/-- Modelled from the spec: assembly of the `RiskAssessment` from the two
ensemble sub-scores and the dynamic threshold: `risk_score` is the rounded
percentage, `flagged` compares the probability with the threshold (§3
invariant, control flow of §2). -/
def assemble (pSupervised sUnsupervised thr : ℚ)
    (reasons : List String) (graphFlagged : Bool) : RiskAssessment :=
  let p := ensembleScore pSupervised sUnsupervised
  { fraud_probability := p
    risk_score := round (p * 100)
    risk_level := riskLevelOf (round (p * 100))
    threshold_used := thr
    flagged := decide (thr ≤ p)
    reasons := reasons
    graph_flagged := graphFlagged }

/-- Modelled from the spec: the immutable `Transaction` record (§3 data
model); the backend engine is absent from the source tree.  Locations are
latitude/longitude pairs, timestamps are in seconds. -/
structure Transaction where
  id : ℕ
  account_id : String
  amount : ℚ
  device_type : String
  location : Option (ℚ × ℚ)
  timestamp : ℚ

/-- Modelled from the spec: the mutable `AccountProfile` owned by the
Feature Store (§3, §4.1).  The rolling aggregates are the 1-hour window of
transaction timestamps and the 24-hour window of (timestamp, amount)
pairs. -/
structure AccountProfile where
  account_id : String
  account_age_days : ℕ
  trust_score : ℚ
  last_location : Option (ℚ × ℚ)
  last_timestamp : Option ℚ
  window_1h : List ℚ
  window_24h : List (ℚ × ℚ)
deriving DecidableEq

/-- Modelled from the spec: the default cold-start profile created by the
Feature Store when an account is absent — `account_age_days = 0`,
`trust_score = 0.5`, empty aggregates (§4.1). -/
def defaultProfile (accId : String) : AccountProfile :=
  { account_id := accId
    account_age_days := 0
    trust_score := 1 / 2
    last_location := none
    last_timestamp := none
    window_1h := []
    window_24h := [] }

/-- Modelled from the spec: the Feature Store's backing state, keyed by
account identifier (§4.1). -/
def FeatureStore : Type := String → Option AccountProfile

/-- Modelled from the spec: `get(account_id) → AccountProfile`, creating
the default cold-start profile if the account is absent (§4.1). -/
def get (store : FeatureStore) (accId : String) : AccountProfile :=
  (store accId).getD (defaultProfile accId)

/-- Modelled from the spec: the derived, per-scoring-call `FeatureVector`
(§3 data model). -/
structure FeatureVector where
  tx_count_1h : ℕ
  tx_amount_sum_24h : ℚ
  amount_ratio : ℚ
  velocity_score : ℚ
  impossible_travel : Bool
  raw_amount : ℚ
  time_of_day : ℚ
  device_type : String

/-- Modelled from the spec: the epsilon guarding the historical-average
denominator of `amount_ratio` (§4.2). -/
def EPSILON : ℚ := 1 / 100

/-- Modelled from the spec:
`amount_ratio = amount / max(historical_average_amount, epsilon)`, with
cold-start accounts (no history) defaulting the ratio to `1.0` (§4.2). -/
def amountRatio (amount : ℚ) (histAmounts : List ℚ) : ℚ :=
  if histAmounts.isEmpty then 1
  else amount / max (histAmounts.sum / histAmounts.length) EPSILON

/-- Modelled from the spec: the maximum plausible travel speed constant,
900 km/h (§4.2). -/
def maxSpeedKmh : ℚ := 900

/-- Modelled from the spec: the `impossible_travel` feature — when the
profile's last location/timestamp and the transaction's location are all
present, the haversine distance divided by the elapsed seconds (converted
to km/h) is compared against the maximum plausible speed; otherwise the
flag is false (§4.2).  The transcendental haversine distance is abstracted
as the `distKm` parameter. -/
def impossibleTravel (distKm : (ℚ × ℚ) → (ℚ × ℚ) → ℚ)
    (lastLoc : Option (ℚ × ℚ)) (lastTs : Option ℚ)
    (loc : Option (ℚ × ℚ)) (ts : ℚ) : Bool :=
  match lastLoc, lastTs, loc with
  | some l0, some t0, some l1 =>
      decide (maxSpeedKmh < distKm l0 l1 / (ts - t0) * 3600)
  | _, _, _ => false

/-- Modelled from the spec: `velocity_score` — the 1-hour count normalized
against the account's historical hourly baseline (taken from the 24-hour
window), clipped to `[0,1]` (§4.2; the spec fixes only the shape). -/
def velocityScore (count1h : ℕ) (count24h : ℕ) : ℚ :=
  min ((count1h : ℚ) / max ((count24h : ℚ) / 24) 1) 1

/-- Modelled from the spec: `derive(transaction, profile) → FeatureVector`
(§4.2).  Window reads are pre-transaction; `time_of_day` is the timestamp
reduced modulo one day. -/
def derive (distKm : (ℚ × ℚ) → (ℚ × ℚ) → ℚ)
    (t : Transaction) (p : AccountProfile) : FeatureVector :=
  { tx_count_1h := p.window_1h.length
    tx_amount_sum_24h := (p.window_24h.map Prod.snd).sum
    amount_ratio := amountRatio t.amount (p.window_24h.map Prod.snd)
    velocity_score := velocityScore p.window_1h.length p.window_24h.length
    impossible_travel :=
      impossibleTravel distKm p.last_location p.last_timestamp t.location t.timestamp
    raw_amount := t.amount
    time_of_day := t.timestamp - 86400 * ⌊t.timestamp / 86400⌋
    device_type := t.device_type }

/-- Modelled from the spec: the `ContagionGraph` — nodes are account
identifiers, edges are undirected shared-attribute links, and a subset of
nodes is marked `confirmed_mule` (§3 data model, §4.6).  Edge weights play
no role in the reachability algorithm and are omitted. -/
structure ContagionGraph where
  edges : List (ℕ × ℕ)
  mules : List ℕ
deriving DecidableEq

/-- Modelled from the spec: the undirected neighbours of an account in the
`ContagionGraph` (§4.6). -/
def neighbors (g : ContagionGraph) (a : ℕ) : List ℕ :=
  g.edges.filterMap fun e =>
    if e.1 = a then some e.2 else if e.2 = a then some e.1 else none

/-- Modelled from the spec: the nodes visited by the bounded breadth-first
search from `a` up to depth `k` (§4.6); the start node is visited at depth
zero. -/
def reach (g : ContagionGraph) : ℕ → ℕ → List ℕ
  | a, 0 => [a]
  | a, k + 1 => a :: (neighbors g a).flatMap fun b => reach g b k

/-- Modelled from the spec: `is_near_mule(account_id)` — bounded BFS up to
depth `k = 2`, true iff some visited node is `confirmed_mule` (§4.6). -/
def is_near_mule (g : ContagionGraph) (a : ℕ) : Bool :=
  (reach g a 2).any fun n => g.mules.contains n

/-- Undirected adjacency in the `ContagionGraph`. -/
def adj (g : ContagionGraph) (a b : ℕ) : Prop :=
  (a, b) ∈ g.edges ∨ (b, a) ∈ g.edges

/-- `Within g a n k`: node `n` lies within `k` hops of node `a` in the
graph `g` (the declarative notion of hop distance the spec quantifies
over). -/
inductive Within (g : ContagionGraph) : ℕ → ℕ → ℕ → Prop
  | refl (a : ℕ) (k : ℕ) : Within g a a k
  | step {a b c : ℕ} {k : ℕ} : adj g a b → Within g b c k → Within g a c (k + 1)

/-- The contagion graph of the C5 counterexample: no edges, and the
account `0` is itself marked `confirmed_mule`. -/
def gIsolatedMule : ContagionGraph :=
  { edges := [], mules := [0] }

/-- Modelled from the spec: a `ModelVersion` with its held-out evaluation
metric (F1 score) (§3 data model, §4.7); the backend engine is absent from
the source tree. -/
structure ModelVersion where
  version_id : ℕ
  f1 : ℚ
deriving DecidableEq

/-- Modelled from the spec: the phases of the Champion/Challenger state
machine `Idle → Training → Evaluating → {Promoted | Rejected} → Idle`
(§4.7). -/
inductive CCPhase
  | Idle
  | Training
  | Evaluating
  | Promoted
  | Rejected
deriving DecidableEq

/-- Modelled from the spec: the Champion/Challenger Controller state — the
phase, the serving champion, the candidate challenger, and the retained
rollback candidate (§4.7). -/
structure Controller where
  phase : CCPhase
  champion : ModelVersion
  challenger : Option ModelVersion
  rollback : Option ModelVersion
deriving DecidableEq

/-- Modelled from the spec: the minimum promotion margin, `+0.02`
(§4.7). -/
def minMargin : ℚ := 1 / 50

/-- Modelled from the spec: the `Evaluating → {Promoted | Rejected}`
transition — the challenger is promoted exactly when its held-out F1
reaches the champion's F1 plus the minimum margin, atomically swapping the
champion reference and retaining the old champion as rollback; otherwise
the challenger is discarded and the champion is unchanged (§4.7).  In any
other phase the step is a no-op. -/
def evaluateChallenger (c : Controller) : Controller :=
  match c.phase, c.challenger with
  | .Evaluating, some ch =>
      if c.champion.f1 + minMargin ≤ ch.f1 then
        { phase := .Promoted
          champion := ch
          challenger := none
          rollback := some c.champion }
      else
        { phase := .Rejected
          champion := c.champion
          challenger := none
          rollback := c.rollback }
  | _, _ => c

/-- Modelled from the spec: one local additive contribution of the
Explainability Generator — the feature's declaration index, its name, and
its signed contribution to the probability (§4.5). -/
structure Contribution where
  idx : ℕ
  feature_name : String
  value : ℚ
deriving DecidableEq

/-- Modelled from the spec: the ranking order of the Explainability
Generator — strictly larger absolute contribution first, ties broken by
feature declaration order (§4.5). -/
def contribOrder (a b : Contribution) : Prop :=
  |b.value| < |a.value| ∨ (|a.value| = |b.value| ∧ a.idx ≤ b.idx)

instance : DecidableRel contribOrder := fun a b => by
  unfold contribOrder
  infer_instance

instance : IsTotal Contribution contribOrder where
  total a b := by
    unfold contribOrder
    rcases lt_trichotomy |a.value| |b.value| with h | h | h
    · exact Or.inr (Or.inl h)
    · rcases le_total a.idx b.idx with hi | hi
      · exact Or.inl (Or.inr ⟨h, hi⟩)
      · exact Or.inr (Or.inr ⟨h.symm, hi⟩)
    · exact Or.inl (Or.inl h)

instance : IsTrans Contribution contribOrder where
  trans a b c hab hbc := by
    unfold contribOrder at *
    rcases hab with h1 | h1 <;> rcases hbc with h2 | h2
    · exact Or.inl (h2.trans h1)
    · exact Or.inl (h2.1 ▸ h1)
    · exact Or.inl (lt_of_lt_of_eq h2 h1.1.symm)
    · exact Or.inr ⟨h1.1.trans h2.1, h1.2.trans h2.2⟩

/-- Modelled from the spec: attach the feature declaration order to a
list of (feature name, contribution) pairs, in list order (§4.5, tie
determinism). -/
def contributionsOf (features : List (String × ℚ)) : List Contribution :=
  features.enum.map fun p => { idx := p.1, feature_name := p.2.1, value := p.2.2 }

/-- Modelled from the spec: `explain` ranks the contributions by absolute
magnitude (ties by declaration order) and emits the top 3 (§4.5). -/
def explain (contribs : List Contribution) : List Contribution :=
  (List.insertionSort contribOrder contribs).take 3

/-- Modelled from the spec: a `FeedbackRecord` created by the Feedback
Ingestor (§3 data model, §4.8). -/
structure FeedbackRecord where
  transaction_id : ℕ
  confirmed_is_fraud : Bool
  analyst_timestamp : ℚ
deriving DecidableEq

/-- Modelled from the spec: `mark_mule(account_id)` marks a node
`confirmed_mule` in the `ContagionGraph` (§4.6); marking an already-marked
node changes nothing. -/
def mark_mule (g : ContagionGraph) (a : ℕ) : ContagionGraph :=
  if a ∈ g.mules then g else { g with mules := a :: g.mules }

/-- Modelled from the spec: overwrite-or-append of a `FeedbackRecord`
keyed by `transaction_id` into the training corpus — a repeated
submission overwrites rather than duplicates (§4.8). -/
def upsert (r : FeedbackRecord) : List FeedbackRecord → List FeedbackRecord
  | [] => [r]
  | x :: xs =>
      if x.transaction_id = r.transaction_id then r :: xs else x :: upsert r xs

/-- Modelled from the spec: the state the Feedback Ingestor acts on — the
training corpus and the contagion graph (§4.8). -/
structure IngestorState where
  corpus : List FeedbackRecord
  graph : ContagionGraph
deriving DecidableEq

/-- Modelled from the spec: `submit(transaction_id, confirmed_is_fraud)` —
appends (overwriting per `transaction_id`) to the training corpus and, if
`confirmed_is_fraud`, invokes `mark_mule` for the transaction's account
(§4.8).  `accountOf` resolves a transaction to its account. -/
def submit (accountOf : ℕ → ℕ) (st : IngestorState) (r : FeedbackRecord) :
    IngestorState :=
  { corpus := upsert r st.corpus
    graph :=
      if r.confirmed_is_fraud then mark_mule st.graph (accountOf r.transaction_id)
      else st.graph }

/-- The JSON body of an HTTP response, as far as `submitTransaction` in
`frontend/src/services/api.js` inspects it: the optional `detail` field
and the remainder of the parsed document, kept opaque. -/
structure JsonBody where
  detail : Option String
  rest : String
deriving DecidableEq

/-- An HTTP response as observed by the API client: `ok`, `status`, and
the body — `some` parsed JSON when `res.json()` resolves, `none` when the
body is not valid JSON and `res.json()` rejects. -/
structure HttpResponse where
  ok : Bool
  status : ℕ
  body : Option JsonBody
deriving DecidableEq

/-- The observable outcome of a `fetch`-based API call: a resolved JSON
value, or a thrown `Error` carrying its message. -/
inductive FetchResult
  | success (body : JsonBody)
  | failure (message : String)
deriving DecidableEq

/-- The empty JSON object `({})` produced by the
`res.json().catch(() => ({}))` fallback in `api.js`. -/
def emptyJson : JsonBody := { detail := none, rest := "" }

/-- Embedded from `frontend/src/services/api.js` lines 6–17
(`submitTransaction`): on a non-ok response the body is parsed with the
empty-object fallback and `new Error(err.detail || 'HTTP <status>')` is
thrown, where `err.detail ||` falls through when `detail` is absent or an
empty (falsy) string; on an ok response `res.json()` is returned, which
itself rejects when the body is not JSON. -/
def submitTransaction (res : HttpResponse) : FetchResult :=
  if res.ok then
    match res.body with
    | some j => .success j
    | none => .failure "Unexpected end of JSON input"
  else
    match (res.body.getD emptyJson).detail with
    | some d =>
        if d = "" then .failure ("HTTP " ++ toString res.status) else .failure d
    | none => .failure ("HTTP " ++ toString res.status)

/-- Stated from the claim C10's words (for comparison with the embedded
`submitTransaction`): the parsed body is returned exactly when `ok` is
true, and every non-ok response throws a message equal to the body's
`detail` field whenever the body parses as JSON, and equal to
`HTTP <status>` when it does not parse. -/
def claimedSubmitBehaviour (res : HttpResponse) : Prop :=
  (res.ok = true ↔ ∃ j, submitTransaction res = .success j) ∧
    (res.ok = false → ∀ m, submitTransaction res = .failure m →
      (∀ j, res.body = some j → j.detail = some m) ∧
        (res.body = none → m = "HTTP " ++ toString res.status))

/-- The C10 counterexample response: non-ok, status 500, and a body that
parses as JSON but carries no `detail` field. -/
def resNoDetail : HttpResponse :=
  { ok := false, status := 500, body := some { detail := none, rest := "ignored" } }

/-- Claim C1: for every transaction scored by the pipeline (ensemble
sub-scores in `[0,1]`), the returned `RiskAssessment` satisfies
`fraud_probability ∈ [0,1]` and `risk_score = round(fraud_probability·100)`. -/
theorem C1_risk_assessment_invariant (ps su thr : ℚ) (reasons : List String)
    (gf : Bool) (hps0 : 0 ≤ ps) (hps1 : ps ≤ 1) (hsu0 : 0 ≤ su) (hsu1 : su ≤ 1) :
    0 ≤ (assemble ps su thr reasons gf).fraud_probability ∧
      (assemble ps su thr reasons gf).fraud_probability ≤ 1 ∧
      (assemble ps su thr reasons gf).risk_score =
        round ((assemble ps su thr reasons gf).fraud_probability * 100) := by
  refine ⟨?_, ?_, rfl⟩ <;>
    simp only [assemble, ensembleScore, w_s, w_u] <;> nlinarith

/-- Concrete instantiation of the C1 theorem at sub-scores `0.9` and
`0.4`. -/
theorem C1_risk_assessment_invariant_witness :
    0 ≤ (assemble (9/10) (2/5) (1/2) [] false).fraud_probability ∧
      (assemble (9/10) (2/5) (1/2) [] false).fraud_probability ≤ 1 ∧
      (assemble (9/10) (2/5) (1/2) [] false).risk_score =
        round ((assemble (9/10) (2/5) (1/2) [] false).fraud_probability * 100) :=
  C1_risk_assessment_invariant (9/10) (2/5) (1/2) [] false
    (by norm_num) (by norm_num) (by norm_num) (by norm_num)

/-- Claim C2: for every `RiskAssessment` produced by the pipeline,
`flagged` is true if and only if `fraud_probability ≥ threshold_used`. -/
theorem C2_flagged_iff_probability_ge_threshold (ps su thr : ℚ)
    (reasons : List String) (gf : Bool) :
    (assemble ps su thr reasons gf).flagged = true ↔
      (assemble ps su thr reasons gf).threshold_used ≤
        (assemble ps su thr reasons gf).fraud_probability := by
  simp [assemble]

/-- Claim C3: the dynamic threshold is monotone non-decreasing in both
`account_age_days` and `trust_score`, bounded within `[t_min, t_max]`
(defaults `0.3` / `0.7`), and equals `t_min` at `account_age_days = 0`
regardless of the trust score. -/
theorem C3_threshold_monotone_bounded (a a1 a2 s s1 s2 : ℚ)
    (ha : 0 ≤ a) (hs0 : 0 ≤ s) (hs1 : s ≤ 1)
    (ha1 : 0 ≤ a1) (h12 : a1 ≤ a2) (hs10 : 0 ≤ s1) (hs12 : s1 ≤ s2) (hs2 : s2 ≤ 1) :
    threshold a1 s ≤ threshold a2 s ∧
      threshold a s1 ≤ threshold a s2 ∧
      t_min ≤ threshold a s ∧ threshold a s ≤ t_max ∧
      threshold 0 s = t_min := by
  have hdiv : a1 / 90 ≤ a2 / 90 := by linarith
  have hfm : fAge a1 ≤ fAge a2 := min_le_min hdiv le_rfl
  have hf0 : 0 ≤ fAge a := le_min (by positivity) (by norm_num)
  have hf1 : fAge a ≤ 1 := min_le_right _ _
  have hf10 : 0 ≤ fAge a1 := le_min (by positivity) (by norm_num)
  refine ⟨?_, ?_, ?_, ?_, ?_⟩
  · unfold threshold t_min t_max
    nlinarith [mul_le_mul_of_nonneg_right hfm hs0]
  · unfold threshold t_min t_max
    nlinarith [mul_le_mul_of_nonneg_left hs12 hf0]
  · unfold threshold t_min t_max
    nlinarith [mul_nonneg hf0 hs0]
  · unfold threshold t_min t_max
    nlinarith [mul_le_mul hf1 hs1 hs0 zero_le_one]
  · have : fAge 0 = 0 := by norm_num [fAge]
    rw [threshold, this]
    ring

/-- Concrete instantiation of the C3 theorem: ages `30 ≤ 180`, trusts
`0.2 ≤ 0.9`, evaluated at age `45` and trust `0.5`. -/
theorem C3_threshold_monotone_bounded_witness :
    threshold 30 (1/2) ≤ threshold 180 (1/2) ∧
      threshold 45 (1/5) ≤ threshold 45 (9/10) ∧
      t_min ≤ threshold 45 (1/2) ∧ threshold 45 (1/2) ≤ t_max ∧
      threshold 0 (1/2) = t_min :=
  C3_threshold_monotone_bounded 45 30 180 (1/2) (1/5) (9/10)
    (by norm_num) (by norm_num) (by norm_num) (by norm_num)
    (by norm_num) (by norm_num) (by norm_num) (by norm_num)

/-- Claim C4: for an account with no prior history, the Feature Store's
`get` creates the default cold-start profile (`account_age_days = 0`,
`trust_score = 0.5`, empty aggregates), and the `FeatureVector` derived
for such an account has `amount_ratio = 1` and `tx_count_1h = 0`. -/
theorem C4_cold_start_profile (store : FeatureStore) (accId : String)
    (distKm : (ℚ × ℚ) → (ℚ × ℚ) → ℚ) (t : Transaction)
    (habsent : store accId = none) :
    get store accId = defaultProfile accId ∧
      (get store accId).account_age_days = 0 ∧
      (get store accId).trust_score = 1 / 2 ∧
      (get store accId).window_1h = [] ∧
      (get store accId).window_24h = [] ∧
      (derive distKm t (get store accId)).amount_ratio = 1 ∧
      (derive distKm t (get store accId)).tx_count_1h = 0 := by
  have hget : get store accId = defaultProfile accId := by
    simp [get, habsent]
  refine ⟨hget, ?_, ?_, ?_, ?_, ?_, ?_⟩ <;>
    simp [hget, defaultProfile, derive, amountRatio]

/-- Concrete instantiation of the C4 theorem on the empty store. -/
theorem C4_cold_start_profile_witness :
    get (fun _ => none) "acct-7" = defaultProfile "acct-7" ∧
      (get (fun _ => none) "acct-7").account_age_days = 0 ∧
      (get (fun _ => none) "acct-7").trust_score = 1 / 2 ∧
      (get (fun _ => none) "acct-7").window_1h = [] ∧
      (get (fun _ => none) "acct-7").window_24h = [] ∧
      (derive (fun _ _ => 0) ⟨1, "acct-7", 250, "Mobile", none, 1000⟩
          (get (fun _ => none) "acct-7")).amount_ratio = 1 ∧
      (derive (fun _ _ => 0) ⟨1, "acct-7", 250, "Mobile", none, 1000⟩
          (get (fun _ => none) "acct-7")).tx_count_1h = 0 :=
  C4_cold_start_profile (fun _ => none) "acct-7" (fun _ _ => 0)
    ⟨1, "acct-7", 250, "Mobile", none, 1000⟩ rfl

/-- Claim C6: `impossible_travel` is true iff the profile's last location,
last timestamp and the transaction's location are all present and the
implied speed (distance over elapsed seconds, as km/h) exceeds the
900 km/h maximum plausible speed; whenever location data is missing the
flag is false. -/
theorem C6_impossible_travel_iff (distKm : (ℚ × ℚ) → (ℚ × ℚ) → ℚ)
    (lastLoc : Option (ℚ × ℚ)) (lastTs : Option ℚ)
    (loc : Option (ℚ × ℚ)) (ts : ℚ) :
    (impossibleTravel distKm lastLoc lastTs loc ts = true ↔
      ∃ l0 t0 l1, lastLoc = some l0 ∧ lastTs = some t0 ∧ loc = some l1 ∧
        maxSpeedKmh < distKm l0 l1 / (ts - t0) * 3600) ∧
      ((lastLoc = none ∨ loc = none) →
        impossibleTravel distKm lastLoc lastTs loc ts = false) := by
  constructor
  · cases lastLoc <;> cases lastTs <;> cases loc <;>
      simp [impossibleTravel]
  · rintro (h | h)
    · subst h
      cases lastTs <;> cases loc <;> simp [impossibleTravel]
    · subst h
      cases lastLoc <;> cases lastTs <;> simp [impossibleTravel]

/-- Concrete instantiation of the C6 theorem: 9000 km within 30 minutes
implies a speed of 18000 km/h, so the flag is raised; with the last
location missing the flag stays down. -/
theorem C6_impossible_travel_iff_witness :
    impossibleTravel (fun _ _ => 9000) (some (0, 0)) (some 0)
        (some (1, 1)) 1800 = true ∧
      impossibleTravel (fun _ _ => 9000) none (some 0)
        (some (1, 1)) 1800 = false :=
  ⟨(C6_impossible_travel_iff (fun _ _ => 9000) (some (0, 0)) (some 0)
      (some (1, 1)) 1800).1.mpr
      ⟨(0, 0), 0, (1, 1), rfl, rfl, rfl, by norm_num [maxSpeedKmh]⟩,
    (C6_impossible_travel_iff (fun _ _ => 9000) none (some 0)
      (some (1, 1)) 1800).2 (Or.inl rfl)⟩

/-- Membership in the neighbour list coincides with undirected
adjacency. -/
theorem mem_neighbors {g : ContagionGraph} {a b : ℕ} :
    b ∈ neighbors g a ↔ adj g a b := by
  unfold neighbors adj
  rw [List.mem_filterMap]
  constructor
  · rintro ⟨⟨x, y⟩, hmem, hf⟩
    dsimp at hf
    split_ifs at hf with h1 h2
    · injection hf with h
      subst h
      subst h1
      exact Or.inl hmem
    · injection hf with h
      subst h
      subst h2
      exact Or.inr hmem
  · rintro (h | h)
    · exact ⟨(a, b), h, by simp⟩
    · refine ⟨(b, a), h, ?_⟩
      dsimp
      by_cases hba : b = a
      · subst hba
        simp
      · simp [hba]

/-- The executable bounded search visits exactly the nodes within `k`
hops. -/
theorem mem_reach {g : ContagionGraph} :
    ∀ (k a n : ℕ), n ∈ reach g a k ↔ Within g a n k
  | 0, a, n => by
    simp only [reach, List.mem_singleton]
    constructor
    · rintro rfl
      exact Within.refl _ _
    · intro h
      cases h
      rfl
  | k + 1, a, n => by
    simp only [reach, List.mem_cons, List.mem_flatMap]
    constructor
    · rintro (rfl | ⟨b, hb, hn⟩)
      · exact Within.refl _ _
      · exact Within.step (mem_neighbors.mp hb) ((mem_reach k b n).mp hn)
    · intro h
      cases h with
      | refl => exact Or.inl rfl
      | step hadj hw =>
        exact Or.inr ⟨_, mem_neighbors.mpr hadj, (mem_reach k _ n).mpr hw⟩

/-- Claim C5, counterexample to the claim as stated: the account `0` is
isolated (no incident edges) yet `is_near_mule` returns true, because the
bounded BFS visits the start node itself and `0` is marked
`confirmed_mule` (a mule is within zero hops of itself). -/
theorem C5_near_mule_counterexample :
    neighbors gIsolatedMule 0 = [] ∧ is_near_mule gIsolatedMule 0 = true := by
  constructor <;> rfl

/-- Claim C5 as amended: `is_near_mule` returns true iff a node marked
`confirmed_mule` exists within 2 hops, and it returns false for an
isolated account with no edges that is not itself marked
`confirmed_mule`. -/
theorem C5_near_mule_amended (g : ContagionGraph) (a : ℕ)
    (hiso : neighbors g a = []) (hnm : a ∉ g.mules) :
    (∀ (g' : ContagionGraph) (b : ℕ),
        is_near_mule g' b = true ↔ ∃ n, Within g' b n 2 ∧ n ∈ g'.mules) ∧
      is_near_mule g a = false := by
  have hiff : ∀ (g' : ContagionGraph) (b : ℕ),
      is_near_mule g' b = true ↔ ∃ n, Within g' b n 2 ∧ n ∈ g'.mules := by
    intro g' b
    unfold is_near_mule
    rw [List.any_eq_true]
    constructor
    · rintro ⟨n, hn, hc⟩
      exact ⟨n, (mem_reach 2 b n).mp hn, by simpa using hc⟩
    · rintro ⟨n, hw, hm⟩
      exact ⟨n, (mem_reach 2 b n).mpr hw, by simpa using hm⟩
  refine ⟨hiff, ?_⟩
  have hr : reach g a 2 = [a] := by
    simp [reach, hiso]
  simp [is_near_mule, hr, hnm]

/-- Concrete instantiation of the amended C5 theorem on the empty graph. -/
theorem C5_near_mule_amended_witness :
    (∀ (g' : ContagionGraph) (b : ℕ),
        is_near_mule g' b = true ↔ ∃ n, Within g' b n 2 ∧ n ∈ g'.mules) ∧
      is_near_mule ⟨[], []⟩ 0 = false :=
  C5_near_mule_amended ⟨[], []⟩ 0 rfl (by simp)

/-- Claim C7: in the Champion/Challenger state machine the
`Evaluating → Promoted` transition fires iff the challenger's held-out F1
is at least the champion's F1 plus the minimum margin; on
`Evaluating → Rejected` the serving champion is unchanged; and after the
step the champion reference is either the fully-old or the fully-new
model, never anything else. -/
theorem C7_champion_challenger_promotion (c : Controller) (ch : ModelVersion)
    (hphase : c.phase = .Evaluating) (hch : c.challenger = some ch) :
    ((evaluateChallenger c).phase = .Promoted ↔
        c.champion.f1 + minMargin ≤ ch.f1) ∧
      ((evaluateChallenger c).phase = .Rejected →
        (evaluateChallenger c).champion = c.champion) ∧
      ((evaluateChallenger c).champion = c.champion ∨
        (evaluateChallenger c).champion = ch) := by
  obtain ⟨phase, champ, chal, rb⟩ := c
  dsimp at hphase hch
  subst hphase
  subst hch
  unfold evaluateChallenger
  by_cases h : champ.f1 + minMargin ≤ ch.f1 <;> simp [h]

/-- Concrete instantiation of the C7 theorem: champion F1 `0.80`,
challenger F1 `0.90`, margin `0.02` — the challenger is promoted. -/
theorem C7_champion_challenger_promotion_witness :
    ((evaluateChallenger ⟨.Evaluating, ⟨1, 4/5⟩, some ⟨2, 9/10⟩, none⟩).phase =
          .Promoted ↔ (⟨1, (4:ℚ)/5⟩ : ModelVersion).f1 + minMargin ≤
            (⟨2, (9:ℚ)/10⟩ : ModelVersion).f1) ∧
      ((evaluateChallenger ⟨.Evaluating, ⟨1, 4/5⟩, some ⟨2, 9/10⟩, none⟩).phase =
          .Rejected →
        (evaluateChallenger ⟨.Evaluating, ⟨1, 4/5⟩, some ⟨2, 9/10⟩, none⟩).champion =
          (⟨.Evaluating, ⟨1, 4/5⟩, some ⟨2, 9/10⟩, none⟩ : Controller).champion) ∧
      ((evaluateChallenger ⟨.Evaluating, ⟨1, 4/5⟩, some ⟨2, 9/10⟩, none⟩).champion =
          (⟨.Evaluating, ⟨1, 4/5⟩, some ⟨2, 9/10⟩, none⟩ : Controller).champion ∨
        (evaluateChallenger ⟨.Evaluating, ⟨1, 4/5⟩, some ⟨2, 9/10⟩, none⟩).champion =
          ⟨2, 9/10⟩) :=
  C7_champion_challenger_promotion
    ⟨.Evaluating, ⟨1, 4/5⟩, some ⟨2, 9/10⟩, none⟩ ⟨2, 9/10⟩ rfl rfl

/-- Claim C8: for every scored transaction the explainability reasons
list has length at most 3 and is sorted by descending absolute
contribution magnitude, ties broken by feature declaration order
(`contribOrder` over the declaration-indexed contributions). -/
theorem C8_explain_top3_sorted (features : List (String × ℚ)) :
    (explain (contributionsOf features)).length ≤ 3 ∧
      (explain (contributionsOf features)).Sorted contribOrder := by
  constructor
  · unfold explain
    simp [List.length_take]
  · unfold explain
    exact List.Pairwise.sublist (List.take_sublist 3 _)
      (List.sorted_insertionSort contribOrder _)

/-- A feedback overwrite keyed by the same `transaction_id` is
idempotent on the corpus. -/
theorem upsert_upsert (r : FeedbackRecord) (l : List FeedbackRecord) :
    upsert r (upsert r l) = upsert r l := by
  induction l with
  | nil => simp [upsert]
  | cons x xs ih =>
    by_cases h : x.transaction_id = r.transaction_id
    · simp [upsert, h]
    · simp [upsert, h, ih]

/-- Marking an account as a mule puts it in the mule set. -/
theorem mem_mark_mule (g : ContagionGraph) (a : ℕ) :
    a ∈ (mark_mule g a).mules := by
  unfold mark_mule
  by_cases h : a ∈ g.mules <;> simp [h]

/-- Claim C9: feedback submission is idempotent per `transaction_id`
(submitting the same feedback twice yields the same training corpus as
once — the repeat overwrites), and a confirmed-fraud submission marks the
transaction's account as a mule. -/
theorem C9_feedback_idempotent_and_marks_mule (accountOf : ℕ → ℕ)
    (st : IngestorState) (r : FeedbackRecord) :
    (submit accountOf (submit accountOf st r) r).corpus =
        (submit accountOf st r).corpus ∧
      (r.confirmed_is_fraud = true →
        accountOf r.transaction_id ∈ (submit accountOf st r).graph.mules) := by
  constructor
  · simp [submit, upsert_upsert]
  · intro h
    simp [submit, h, mem_mark_mule]

/-- Concrete instantiation of the C9 theorem on an empty ingestor state
and a confirmed-fraud record for transaction `7` of account `42`. -/
theorem C9_feedback_idempotent_and_marks_mule_witness :
    (submit (fun _ => 42) (submit (fun _ => 42) ⟨[], ⟨[], []⟩⟩ ⟨7, true, 100⟩)
          ⟨7, true, 100⟩).corpus =
        (submit (fun _ => 42) ⟨[], ⟨[], []⟩⟩ ⟨7, true, 100⟩).corpus ∧
      42 ∈ (submit (fun _ => 42) ⟨[], ⟨[], []⟩⟩ ⟨7, true, 100⟩).graph.mules :=
  ⟨(C9_feedback_idempotent_and_marks_mule (fun _ => 42) ⟨[], ⟨[], []⟩⟩
      ⟨7, true, 100⟩).1,
    (C9_feedback_idempotent_and_marks_mule (fun _ => 42) ⟨[], ⟨[], []⟩⟩
      ⟨7, true, 100⟩).2 rfl⟩

/-- Claim C10, counterexample to the claim as stated: a non-ok response
whose body parses as JSON but has no `detail` field is thrown as
`HTTP 500`, while the claim requires the message to be the body's
`detail` field whenever the body parses as JSON. -/
theorem C10_submit_transaction_counterexample :
    submitTransaction resNoDetail = .failure "HTTP 500" ∧
      ¬ claimedSubmitBehaviour resNoDetail := by
  refine ⟨rfl, ?_⟩
  intro h
  have hd := (h.2 rfl "HTTP 500" rfl).1 { detail := none, rest := "ignored" } rfl
  simp at hd

/-- Claim C10 as amended: `submitTransaction` returns the parsed body
exactly when the response is ok and its body parses as JSON; every non-ok
response throws, with the body's `detail` field as message when the body
parses as JSON with a non-empty `detail` string, and `HTTP <status>`
otherwise (body unparseable, `detail` absent, or `detail` empty). -/
theorem C10_submit_transaction_amended (res : HttpResponse) :
    (∀ j, submitTransaction res = .success j →
        res.ok = true ∧ res.body = some j) ∧
      (res.ok = true → ∀ j, res.body = some j →
        submitTransaction res = .success j) ∧
      (res.ok = false → ∀ j d, res.body = some j → j.detail = some d →
        d ≠ "" → submitTransaction res = .failure d) ∧
      (res.ok = false →
        (res.body = none ∨
          ∃ j, res.body = some j ∧ (j.detail = none ∨ j.detail = some "")) →
        submitTransaction res = .failure ("HTTP " ++ toString res.status)) := by
  obtain ⟨ok, status, body⟩ := res
  cases ok
  · refine ⟨?_, ?_, ?_, ?_⟩
    · intro j h
      exfalso
      cases body with
      | none => simp [submitTransaction, emptyJson] at h
      | some jb =>
        rcases hd : jb.detail with _ | d
        · simp [submitTransaction, hd] at h
        · by_cases hde : d = "" <;> simp [submitTransaction, hd, hde] at h
    · intro h
      simp at h
    · rintro _ j d rfl hd hde
      simp [submitTransaction, hd, hde]
    · rintro _ (h | ⟨j, rfl, hd | hd⟩)
      · subst h
        simp [submitTransaction, emptyJson]
      · simp [submitTransaction, hd]
      · simp [submitTransaction, hd]
  · refine ⟨?_, ?_, ?_, ?_⟩
    · intro j h
      cases body with
      | none => simp [submitTransaction] at h
      | some jb =>
        simp [submitTransaction] at h
        simp [h]
    · rintro _ j rfl
      simp [submitTransaction]
    · intro h
      simp at h
    · intro h
      simp at h

/-- Concrete instantiation of the amended C10 theorem: an ok response
returns its parsed body, and a non-ok response with a non-empty `detail`
throws that detail. -/
theorem C10_submit_transaction_amended_witness :
    submitTransaction ⟨true, 200, some ⟨some "fine", "payload"⟩⟩ =
        .success ⟨some "fine", "payload"⟩ ∧
      submitTransaction ⟨false, 422, some ⟨some "Invalid amount", "x"⟩⟩ =
        .failure "Invalid amount" :=
  ⟨(C10_submit_transaction_amended ⟨true, 200, some ⟨some "fine", "payload"⟩⟩).2.1
      rfl ⟨some "fine", "payload"⟩ rfl,
    (C10_submit_transaction_amended
        ⟨false, 422, some ⟨some "Invalid amount", "x"⟩⟩).2.2.1
      rfl ⟨some "Invalid amount", "x"⟩ "Invalid amount" rfl rfl (by simp)⟩

end FraudShield
